import Mathlib

/-!
# Verification of `System.Device.Gpio.Native/libgpiod.c`

The file under study is a set of C entry points over the `libgpiod` library
(`#include <gpiod.h>`).  The library itself is an external collaborator: it
appears here as a record of operations over an abstract library state `σ`
(`Gpiod σ`), and every entry point of `libgpiod.c` is a function of such a
record, written in explicit state-passing style.

* C pointers (`struct gpiod_chip *`, `struct gpiod_line *`,
  `struct gpiod_chip_iter *`) are opaque handles `Ptr`; `0` is `NULL`.
* `int` is `Int`, `unsigned int` is `Nat`, `bool` is `Bool`,
  `const char *` is `String`.  No entry point does arithmetic.
* `void` functions return the new library state only.
-/

namespace Libgpiod

/-- An opaque C pointer; `0` is `NULL`. -/
abbrev Ptr := Nat

/-- The C `struct timespec`: seconds and nanoseconds. -/
structure timespec where
  tv_sec : Int
  tv_nsec : Int
  deriving DecidableEq, Repr

/-- The length of a `timespec` in nanoseconds. -/
def timespec.toNanos (t : timespec) : Int :=
  t.tv_sec * 1000000000 + t.tv_nsec

/-- The `struct gpiod_line_event` of `gpiod.h`: a timestamp and the event
type.  `ReadEventForLine` reads the field `event_type` only. -/
structure gpiod_line_event where
  ts : timespec
  event_type : Int
  deriving DecidableEq, Repr

/-- The operations of `gpiod.h` that `libgpiod.c` calls, over a library state
`σ`.  `gpiod_line_event_read` receives the contents of the caller's event
buffer and returns the response together with the buffer's contents after the
call; it returns `none` when the call does not return (the source notes that
it blocks while no event is queued). -/
structure Gpiod (σ : Type) where
  gpiod_chip_close : Ptr → σ → σ
  gpiod_chip_num_lines : Ptr → σ → Nat × σ
  gpiod_chip_get_line : Ptr → Nat → σ → Ptr × σ
  gpiod_line_direction : Ptr → σ → Int × σ
  gpiod_line_request_input : Ptr → String → σ → Int × σ
  gpiod_line_request_output : Ptr → String → Int → σ → Int × σ
  gpiod_line_is_free : Ptr → σ → Bool × σ
  gpiod_line_release : Ptr → σ → σ
  gpiod_line_get_value : Ptr → σ → Int × σ
  gpiod_line_set_value : Ptr → Int → σ → Int × σ
  gpiod_chip_iter_new : σ → Ptr × σ
  gpiod_chip_iter_free : Ptr → σ → σ
  gpiod_chip_iter_free_noclose : Ptr → σ → σ
  gpiod_chip_iter_next : Ptr → σ → Ptr × σ
  gpiod_line_request_both_edges_events : Ptr → String → σ → Int × σ
  gpiod_line_event_wait : Ptr → timespec → σ → Int × σ
  gpiod_line_event_read :
    Ptr → gpiod_line_event → σ → Option ((Int × gpiod_line_event) × σ)
  gpiod_chip_open_by_number : Int → σ → Ptr × σ

section EntryPoints

variable {σ : Type} (L : Gpiod σ)

/-- Entry point `CloseChip`: `gpiod_chip_close(chip);` -/
def CloseChip (chip : Ptr) (s : σ) : σ :=
  L.gpiod_chip_close chip s

/-- Entry point `GetNumberOfLines`: `return gpiod_chip_num_lines(chip);` -/
def GetNumberOfLines (chip : Ptr) (s : σ) : Nat × σ :=
  L.gpiod_chip_num_lines chip s

/-- Entry point `GetChipLineByOffset`: `return gpiod_chip_get_line(chip, offset);` -/
def GetChipLineByOffset (chip : Ptr) (offset : Nat) (s : σ) : Ptr × σ :=
  L.gpiod_chip_get_line chip offset s

/-- Entry point `GetLineDirection`: `return gpiod_line_direction(line);` -/
def GetLineDirection (line : Ptr) (s : σ) : Int × σ :=
  L.gpiod_line_direction line s

/-- Entry point `RequestLineInput`: `return gpiod_line_request_input(line, consumer);` -/
def RequestLineInput (line : Ptr) (consumer : String) (s : σ) : Int × σ :=
  L.gpiod_line_request_input line consumer s

/-- Entry point `RequestLineOutput`:
`return gpiod_line_request_output(line, consumer, 0);` -/
def RequestLineOutput (line : Ptr) (consumer : String) (s : σ) : Int × σ :=
  L.gpiod_line_request_output line consumer 0 s

/-- Entry point `LineIsFree`: `return gpiod_line_is_free(line);` -/
def LineIsFree (line : Ptr) (s : σ) : Bool × σ :=
  L.gpiod_line_is_free line s

/-- Entry point `ReleaseGpiodLine`: `gpiod_line_release(line);` -/
def ReleaseGpiodLine (line : Ptr) (s : σ) : σ :=
  L.gpiod_line_release line s

/-- Entry point `GetGpiodLineValue`: `return gpiod_line_get_value(line);` -/
def GetGpiodLineValue (line : Ptr) (s : σ) : Int × σ :=
  L.gpiod_line_get_value line s

/-- Entry point `SetGpiodLineValue`: `return gpiod_line_set_value(line, value);` -/
def SetGpiodLineValue (line : Ptr) (value : Int) (s : σ) : Int × σ :=
  L.gpiod_line_set_value line value s

/-- Entry point `GetChipIterator`: `return gpiod_chip_iter_new();` -/
def GetChipIterator (s : σ) : Ptr × σ :=
  L.gpiod_chip_iter_new s

/-- Entry point `FreeChipIterator`: `gpiod_chip_iter_free(iter);` -/
def FreeChipIterator (iter : Ptr) (s : σ) : σ :=
  L.gpiod_chip_iter_free iter s

/-- Entry point `FreeChipIteratorNoCloseCurrentChip`:
`gpiod_chip_iter_free_noclose(iter);` -/
def FreeChipIteratorNoCloseCurrentChip (iter : Ptr) (s : σ) : σ :=
  L.gpiod_chip_iter_free_noclose iter s

/-- Entry point `GetNextChipFromChipIterator`: `return gpiod_chip_iter_next(iter);` -/
def GetNextChipFromChipIterator (iter : Ptr) (s : σ) : Ptr × σ :=
  L.gpiod_chip_iter_next iter s

/-- Entry point `RequestBothEdgesEventForLine`:
`return gpiod_line_request_both_edges_events(line, consumer);` -/
def RequestBothEdgesEventForLine (line : Ptr) (consumer : String) (s : σ) :
    Int × σ :=
  L.gpiod_line_request_both_edges_events line consumer s

/-- The local `struct timespec timeout = { 0, 1000000 };` of
`WaitForEventOnLine`. -/
def WaitForEventOnLine.timeout : timespec :=
  { tv_sec := 0, tv_nsec := 1000000 }

/-- Entry point `WaitForEventOnLine`:
`struct timespec timeout = { 0, 1000000 };`
`return gpiod_line_event_wait(line, &timeout);` -/
def WaitForEventOnLine (line : Ptr) (s : σ) : Int × σ :=
  L.gpiod_line_event_wait line WaitForEventOnLine.timeout s

/-- Entry point `ReadEventForLine`.  The local `struct gpiod_line_event event;` is not
initialised by the source, so its contents before the library call are the
argument `event`.
```
int response = gpiod_line_event_read(line, &event);
if (response == 0) { return event.event_type; }
return response;
```
The result is `none` when the library call does not return. -/
def ReadEventForLine (line : Ptr) (event : gpiod_line_event) (s : σ) :
    Option (Int × σ) :=
  match L.gpiod_line_event_read line event s with
  | none => none
  | some ((response, event'), s') =>
    if response = 0 then some (event'.event_type, s')
    else some (response, s')

/-- Entry point `OpenChipByNumber`: `return gpiod_chip_open_by_number(number);` -/
def OpenChipByNumber (number : Int) (s : σ) : Ptr × σ :=
  L.gpiod_chip_open_by_number number s

end EntryPoints

/-! ## A reference library

`libgpiod` itself is not part of the repository.  For the properties that
depend on what the library does (reservation state, iterator disposal, chip
closing) the library is modelled from the specification's data model (§3) and
component design (§4) as a small state machine, `Sim`.  What the specification
leaves undefined (an operation on a handle that is not valid any more) is not
decided by the model: such an operation yields the field `undef` of the
state, which can hold any value. -/

/-- Modelled from the spec: the reservation state of a line, which the library
(not in `src/`) keeps.  §4.3: `Free → (requestInput|requestOutput|
requestBothEdgeEvents) → Reserved → (release) → Free`; closing the owning chip
forces an "unusable/invalid terminal state". -/
inductive LineState where
  | free
  | input
  | output
  | events
  | invalid
  deriving DecidableEq, Repr

/-- Modelled from the spec: the library's record of a chip handle (§3 Chip:
numeric index, line count; open until closed).  `line_at` is the handle of the
line at each offset, `0` while none was handed out. -/
structure SimChip where
  number : Nat
  num_lines : Nat
  is_open : Bool
  line_at : Nat → Ptr

/-- Modelled from the spec: the library's record of a line handle (§3 Line:
owning chip, offset, direction, reservation state, consumer name), with the
logical level and the queue of edge events of §3 Event Subscription. -/
structure SimLine where
  chip : Ptr
  offset : Nat
  state : LineState
  consumer : String
  direction : Int
  value : Int
  queue : List Int

/-- Modelled from the spec: the library's record of a chip iterator (§3 Chip
Iterator: current position, current chip handle; `0` when no chip was
yielded yet). -/
structure SimIter where
  position : Nat
  current : Ptr

/-- Modelled from the spec: the state of the library, which is not in `src/`.
`devices` lists the line count of each chip device of the system, by number;
`undef` is the result of an operation the specification leaves undefined;
`read_error` says that reading a level fails at the kernel boundary (§4.2
`getValue`, §7 IOFailure);
`dir_input` and `dir_output` are the codes `GPIOD_DIRECTION_INPUT` and
`GPIOD_DIRECTION_OUTPUT` of `gpiod.h`. -/
structure Sim where
  devices : List Nat
  chips : Ptr → Option SimChip
  lines : Ptr → Option SimLine
  iters : Ptr → Option SimIter
  fresh : Ptr
  undef : Int
  read_error : Bool
  dir_input : Int
  dir_output : Int

/-- A finite map with one entry replaced. -/
def upd {α : Type} (m : Ptr → Option α) (k : Ptr) (v : Option α) :
    Ptr → Option α :=
  fun p => if p = k then v else m p

/-- Modelled from the spec: the line record a library operation works on;
`none` for a handle the library never handed out and for a line of a closed
chip (§4.1: after `closeChip` "all Lines derived from it are invalid"). -/
def Sim.validLine (s : Sim) (line : Ptr) : Option SimLine :=
  match s.lines line with
  | some l => if l.state = LineState.invalid then none else some l
  | none => none

/-- Modelled from the spec: whether a chip handle is open in the library. -/
def Sim.chipOpen (s : Sim) (chip : Ptr) : Bool :=
  match s.chips chip with
  | some c => c.is_open
  | none => false

/-- Modelled from the spec: the logical level of an integer value. -/
def logical (v : Int) : Int :=
  if v = 0 then 0 else 1

/-- Modelled from the spec: opening the chip device of a given number (library
code, not in `src/`).  §4.1: fails with a null result if no such device
exists. -/
def Sim.openDevice (n : Nat) (s : Sim) : Ptr × Sim :=
  match s.devices.get? n with
  | none => (0, s)
  | some k =>
    let h := s.fresh + 1
    (h, { s with
            fresh := h
            chips := upd s.chips h
              (some { number := n, num_lines := k, is_open := true,
                      line_at := fun _ => 0 }) })

/-- Modelled from the spec: `gpiod_chip_open_by_number` (not in `src/`), §4.1
`openChipByNumber`. -/
def Sim.gpiod_chip_open_by_number (number : Int) (s : Sim) : Ptr × Sim :=
  if number < 0 then (0, s) else s.openDevice number.toNat

/-- Modelled from the spec: `gpiod_chip_close` (not in `src/`).  §4.1: the
handle is released and all lines derived from it become invalid. -/
def Sim.gpiod_chip_close (chip : Ptr) (s : Sim) : Sim :=
  { s with
      chips := fun p =>
        if p = chip then (s.chips p).map (fun c => { c with is_open := false })
        else s.chips p
      lines := fun p =>
        (s.lines p).map (fun l =>
          if l.chip = chip then { l with state := LineState.invalid } else l) }

/-- Modelled from the spec: `gpiod_chip_num_lines` (not in `src/`), §4.1
`getNumberOfLines`: a pure query. -/
def Sim.gpiod_chip_num_lines (chip : Ptr) (s : Sim) : Nat × Sim :=
  match s.chips chip with
  | some c => if c.is_open then (c.num_lines, s) else (s.undef.toNat, s)
  | none => (s.undef.toNat, s)

/-- Modelled from the spec: `gpiod_chip_get_line` (not in `src/`), §4.1
`getLineByOffset`: "fails if offset ≥ line count or chip is invalid".  A line
handed out before is handed out again. -/
def Sim.gpiod_chip_get_line (chip : Ptr) (offset : Nat) (s : Sim) : Ptr × Sim :=
  match s.chips chip with
  | none => (0, s)
  | some c =>
    if c.is_open = true ∧ offset < c.num_lines then
      if c.line_at offset ≠ 0 then (c.line_at offset, s)
      else
        let h := s.fresh + 1
        (h, { s with
                fresh := h
                chips := upd s.chips chip
                  (some { c with
                    line_at := fun o => if o = offset then h else c.line_at o })
                lines := upd s.lines h
                  (some { chip := chip, offset := offset,
                          state := LineState.free, consumer := "",
                          direction := s.undef, value := 0, queue := [] }) })
    else (0, s)

/-- Modelled from the spec: `gpiod_line_direction` (not in `src/`), §4.2
`getDirection`: the last-configured direction, "undefined if the line was
never reserved". -/
def Sim.gpiod_line_direction (line : Ptr) (s : Sim) : Int × Sim :=
  match s.validLine line with
  | some l => (l.direction, s)
  | none => (s.undef, s)

/-- Modelled from the spec: reserving a line in a given state (library code,
not in `src/`).  §4.2: the request succeeds on a free line and "fails if
already reserved". -/
def Sim.reserve (line : Ptr) (st : LineState) (consumer : String)
    (direction : Int) (value : Int → Int) (s : Sim) : Int × Sim :=
  match s.validLine line with
  | none => (s.undef, s)
  | some l =>
    if l.state = LineState.free then
      (0, { s with
              lines := upd s.lines line
                (some { l with state := st, consumer := consumer,
                               direction := direction,
                               value := value l.value }) })
    else (-1, s)

/-- Modelled from the spec: `gpiod_line_request_input` (not in `src/`), §4.2
`requestInput`. -/
def Sim.gpiod_line_request_input (line : Ptr) (consumer : String) (s : Sim) :
    Int × Sim :=
  s.reserve line LineState.input consumer s.dir_input id

/-- Modelled from the spec: `gpiod_line_request_output` (not in `src/`), §4.2
`requestOutput`: reserves the line for writing with an initial output
value. -/
def Sim.gpiod_line_request_output (line : Ptr) (consumer : String)
    (default_val : Int) (s : Sim) : Int × Sim :=
  s.reserve line LineState.output consumer s.dir_output
    (fun _ => logical default_val)

/-- Modelled from the spec: `gpiod_line_is_free` (not in `src/`), §4.2
`isFree`: "true iff neither a value reservation nor an event subscription is
active on this line". -/
def Sim.gpiod_line_is_free (line : Ptr) (s : Sim) : Bool × Sim :=
  match s.validLine line with
  | some l => (decide (l.state = LineState.free), s)
  | none => (decide (s.undef ≠ 0), s)

/-- Modelled from the spec: `gpiod_line_release` (not in `src/`), §4.2
`release`: "unreserves the line, clearing both value-reservation and any
event subscription". -/
def Sim.gpiod_line_release (line : Ptr) (s : Sim) : Sim :=
  match s.validLine line with
  | some l =>
    { s with
        lines := upd s.lines line
          (some { l with state := LineState.free, queue := [] }) }
  | none => s

/-- Modelled from the spec: `gpiod_line_get_value` (not in `src/`), §4.2
`getValue`: "reads current logical level. Fails with a distinguished error
value if the line is not reserved or a read error occurs at the kernel
boundary". -/
def Sim.gpiod_line_get_value (line : Ptr) (s : Sim) : Int × Sim :=
  match s.validLine line with
  | some l =>
    if l.state = LineState.free ∨ s.read_error = true then (-1, s)
    else (logical l.value, s)
  | none => (s.undef, s)

/-- Modelled from the spec: `gpiod_line_set_value` (not in `src/`), §4.2
`setValue`: "requires the line be reserved for output; fails otherwise". -/
def Sim.gpiod_line_set_value (line : Ptr) (value : Int) (s : Sim) : Int × Sim :=
  match s.validLine line with
  | some l =>
    if l.state = LineState.output then
      (0, { s with lines := upd s.lines line
                     (some { l with value := logical value }) })
    else (-1, s)
  | none => (s.undef, s)

/-- Modelled from the spec: `gpiod_chip_iter_new` (not in `src/`), §4.4
`newIterator`: "does not itself open any chip yet". -/
def Sim.gpiod_chip_iter_new (s : Sim) : Ptr × Sim :=
  let h := s.fresh + 1
  (h, { s with fresh := h
               iters := upd s.iters h (some { position := 0, current := 0 }) })

/-- Modelled from the spec: `gpiod_chip_iter_free_noclose` (not in `src/`),
§4.4 `freeIteratorNoClose`: releases the iterator bookkeeping and leaves the
most recently yielded chip open. -/
def Sim.gpiod_chip_iter_free_noclose (iter : Ptr) (s : Sim) : Sim :=
  { s with iters := upd s.iters iter none }

/-- Modelled from the spec: `gpiod_chip_iter_free` (not in `src/`), §4.4
`freeIterator`: releases the iterator bookkeeping and "additionally closes the
most recently yielded chip". -/
def Sim.gpiod_chip_iter_free (iter : Ptr) (s : Sim) : Sim :=
  match s.iters iter with
  | none => s
  | some it =>
    let s1 := { s with iters := upd s.iters iter none }
    if it.current ≠ 0 then s1.gpiod_chip_close it.current else s1

/-- Modelled from the spec: `gpiod_chip_iter_next` (not in `src/`), §4.4
`next`: "advances to and opens the next chip in system order; as a side
effect, closes whichever chip was previously yielded by this same iterator";
the end marker is the null handle. -/
def Sim.gpiod_chip_iter_next (iter : Ptr) (s : Sim) : Ptr × Sim :=
  match s.iters iter with
  | none => (0, s)
  | some it =>
    let s1 := if it.current ≠ 0 then s.gpiod_chip_close it.current else s
    let r := s1.openDevice it.position
    (r.1, { r.2 with
              iters := upd r.2.iters iter
                (some { position :=
                          if r.1 = 0 then it.position else it.position + 1,
                        current := r.1 }) })

/-- Modelled from the spec: `gpiod_line_request_both_edges_events` (not in
`src/`), §4.3 `requestBothEdgeEvents`: "the underlying mechanism treats an
event subscription as a form of input reservation". -/
def Sim.gpiod_line_request_both_edges_events (line : Ptr) (consumer : String)
    (s : Sim) : Int × Sim :=
  s.reserve line LineState.events consumer s.dir_input id

/-- Modelled from the spec: `gpiod_line_event_wait` (not in `src/`), §4.3
`waitForEvent`: `1` when an event is queued, `0` (timed out) when nothing is
pending (§8: also on a line with no reservation).  The model has no clock. -/
def Sim.gpiod_line_event_wait (line : Ptr) (_timeout : timespec) (s : Sim) :
    Int × Sim :=
  match s.validLine line with
  | some l => if l.queue = [] then (0, s) else (1, s)
  | none => (s.undef, s)

/-- Modelled from the spec: `gpiod_line_event_read` (not in `src/`), §4.3
`readEvent`: consumes one queued event and stores it in the buffer; blocks
(no result) while no event is queued; fails with `-1`, leaving the buffer as
it was, on a line without an event subscription. -/
def Sim.gpiod_line_event_read (line : Ptr) (event : gpiod_line_event)
    (s : Sim) : Option ((Int × gpiod_line_event) × Sim) :=
  match s.validLine line with
  | none => some ((s.undef, event), s)
  | some l =>
    if l.state = LineState.events then
      match l.queue with
      | [] => none
      | e :: rest =>
        some ((0, { ts := event.ts, event_type := e }),
              { s with lines := upd s.lines line (some { l with queue := rest }) })
    else some ((-1, event), s)

/-- Modelled from the spec: the operations of the library (not in `src/`),
collected as the record the entry points are run on. -/
def simLib : Gpiod Sim where
  gpiod_chip_close := Sim.gpiod_chip_close
  gpiod_chip_num_lines := Sim.gpiod_chip_num_lines
  gpiod_chip_get_line := Sim.gpiod_chip_get_line
  gpiod_line_direction := Sim.gpiod_line_direction
  gpiod_line_request_input := Sim.gpiod_line_request_input
  gpiod_line_request_output := Sim.gpiod_line_request_output
  gpiod_line_is_free := Sim.gpiod_line_is_free
  gpiod_line_release := Sim.gpiod_line_release
  gpiod_line_get_value := Sim.gpiod_line_get_value
  gpiod_line_set_value := Sim.gpiod_line_set_value
  gpiod_chip_iter_new := Sim.gpiod_chip_iter_new
  gpiod_chip_iter_free := Sim.gpiod_chip_iter_free
  gpiod_chip_iter_free_noclose := Sim.gpiod_chip_iter_free_noclose
  gpiod_chip_iter_next := Sim.gpiod_chip_iter_next
  gpiod_line_request_both_edges_events :=
    Sim.gpiod_line_request_both_edges_events
  gpiod_line_event_wait := Sim.gpiod_line_event_wait
  gpiod_line_event_read := Sim.gpiod_line_event_read
  gpiod_chip_open_by_number := Sim.gpiod_chip_open_by_number

/-- Modelled from the spec: a system with one chip device of two lines and no
handle handed out yet (a state of the library, which is not in `src/`);
`undef` is the value undefined operations yield. -/
def Sim.boot (undef : Int) : Sim where
  devices := [2]
  chips := fun _ => none
  lines := fun _ => none
  iters := fun _ => none
  fresh := 0
  undef := undef
  read_error := false
  dir_input := 1
  dir_output := 2

/-- Modelled from the spec: the injection of an edge transition on the test
double of §8 ("a simulated rising transition is injected"): the event type is
queued on a line that holds an event subscription. -/
def Sim.inject (line : Ptr) (event_type : Int) (s : Sim) : Sim :=
  match s.validLine line with
  | some l =>
    if l.state = LineState.events then
      { s with lines := upd s.lines line
                 (some { l with queue := l.queue ++ [event_type] }) }
    else s
  | none => s

/-- The state after chip 0 was opened (handle `1`) and its line 0 was obtained
(handle `2`), on a system whose undefined operations yield `undef`. -/
def Sim.withLine (undef : Int) : Sim :=
  (GetChipLineByOffset simLib 1 0
    (OpenChipByNumber simLib 0 (Sim.boot undef)).2).2

/-- The state in which line `2` holds an event subscription and one rising
edge (event type `1`) is queued. -/
def Sim.risingQueued : Sim :=
  Sim.inject 2 1
    (RequestBothEdgesEventForLine simLib 2 "monitor" (Sim.withLine (-1))).2

/-- The state in which an iterator (handle `1`) has yielded its first chip
(handle `2`). -/
def Sim.iterating : Sim :=
  (GetNextChipFromChipIterator simLib 1
    (GetChipIterator simLib (Sim.boot (-1))).2).2

/-- An event buffer holding arbitrary data. -/
def staleEvent (n : Int) : gpiod_line_event :=
  { ts := { tv_sec := n, tv_nsec := n }, event_type := n }

/-- The state in which line `2` is reserved for output by `RequestLineOutput`. -/
def Sim.outputReserved : Sim :=
  (RequestLineOutput simLib 2 "led" (Sim.withLine (-1))).2

/-! ## Properties of the entry points, for every library -/

section Generic

variable {σ : Type} (L : Gpiod σ)

/-- C1: when the library's event read returns 0, `ReadEventForLine` returns the
type of the event that was read; when it returns -1, `ReadEventForLine` returns
-1.  If the library's read returns only 0 or -1 and a read event has type 1 or
2, the result is one of 1, 2, -1 and it is -1 exactly when the read failed. -/
theorem ReadEventForLine_result (line : Ptr) (event : gpiod_line_event) (s : σ)
    (response : Int) (event' : gpiod_line_event) (s' : σ)
    (hread : L.gpiod_line_event_read line event s
      = some ((response, event'), s')) :
    (response = 0 →
      ReadEventForLine L line event s = some (event'.event_type, s')) ∧
    (response = -1 → ReadEventForLine L line event s = some (-1, s')) ∧
    (response = 0 ∨ response = -1 →
      (response = 0 → event'.event_type = 1 ∨ event'.event_type = 2) →
      ∃ v, ReadEventForLine L line event s = some (v, s') ∧
        (v = 1 ∨ v = 2 ∨ v = -1) ∧ (v = -1 ↔ response = -1)) := by
  refine ⟨?_, ?_, ?_⟩
  · intro h0
    simp [ReadEventForLine, hread, h0]
  · intro h1
    simp [ReadEventForLine, hread, h1]
  · intro hresp hty
    rcases hresp with h0 | h1
    · refine ⟨event'.event_type, by simp [ReadEventForLine, hread, h0], ?_, ?_⟩
      · rcases hty h0 with h | h
        · exact Or.inl h
        · exact Or.inr (Or.inl h)
      · rcases hty h0 with h | h <;> simp [h, h0]
    · exact ⟨-1, by simp [ReadEventForLine, hread, h1], by simp, by simp [h1]⟩

/-- C2: `WaitForEventOnLine` always passes the library the same timeout,
whatever the line and the state: 0 seconds and 1,000,000 nanoseconds.  That is
exactly one millisecond, a well-formed timespec (nanoseconds in
`[0, 1,000,000,000)`), and strictly less than ten milliseconds. -/
theorem WaitForEventOnLine_timeout (line : Ptr) (s : σ) :
    WaitForEventOnLine L line s
      = L.gpiod_line_event_wait line { tv_sec := 0, tv_nsec := 1000000 } s ∧
    WaitForEventOnLine.timeout.tv_sec = 0 ∧
    WaitForEventOnLine.timeout.tv_nsec = 1000000 ∧
    WaitForEventOnLine.timeout.toNanos = 1 * 1000000 ∧
    0 ≤ WaitForEventOnLine.timeout.tv_nsec ∧
    WaitForEventOnLine.timeout.tv_nsec < 1000000000 ∧
    WaitForEventOnLine.timeout.toNanos < 10 * 1000000 := by
  refine ⟨rfl, rfl, rfl, ?_, ?_, ?_, ?_⟩ <;>
    simp [WaitForEventOnLine.timeout, timespec.toNanos]

/-- C3: the result of `WaitForEventOnLine` is the library's wait result for
that line and the 1 ms timeout (0 seconds, 1,000,000 nanoseconds), so it is 0
exactly when the library's wait timed out, 1 exactly when it reported an event
and -1 exactly when it reported an error. -/
theorem WaitForEventOnLine_three_way (line : Ptr) (s : σ) :
    WaitForEventOnLine L line s
      = L.gpiod_line_event_wait line { tv_sec := 0, tv_nsec := 1000000 } s ∧
    ((WaitForEventOnLine L line s).1 = 0 ↔
      (L.gpiod_line_event_wait line
        { tv_sec := 0, tv_nsec := 1000000 } s).1 = 0) ∧
    ((WaitForEventOnLine L line s).1 = 1 ↔
      (L.gpiod_line_event_wait line
        { tv_sec := 0, tv_nsec := 1000000 } s).1 = 1) ∧
    ((WaitForEventOnLine L line s).1 = -1 ↔
      (L.gpiod_line_event_wait line
        { tv_sec := 0, tv_nsec := 1000000 } s).1 = -1) :=
  ⟨rfl, Iff.rfl, Iff.rfl, Iff.rfl⟩

/-- C4: `RequestLineOutput` asks the library for an output reservation of the
same line with the same consumer name and initial value 0, and returns the
library's result unchanged (0 if the line was reserved, -1 on failure). -/
theorem RequestLineOutput_initial_zero (line : Ptr) (consumer : String)
    (s : σ) :
    RequestLineOutput L line consumer s
      = L.gpiod_line_request_output line consumer 0 s ∧
    ((RequestLineOutput L line consumer s).1 = 0 ↔
      (L.gpiod_line_request_output line consumer 0 s).1 = 0) ∧
    ((RequestLineOutput L line consumer s).1 = -1 ↔
      (L.gpiod_line_request_output line consumer 0 s).1 = -1) :=
  ⟨rfl, Iff.rfl, Iff.rfl⟩

/-- C6: each of the fifteen entry points other than `ReadEventForLine`,
`WaitForEventOnLine` and `RequestLineOutput` is the corresponding library
operation applied to the same arguments in the same order, with its result
(and its effect on the library state) unchanged. -/
theorem pass_through (chip line iter : Ptr) (offset : Nat) (consumer : String)
    (value number : Int) (s : σ) :
    CloseChip L chip s = L.gpiod_chip_close chip s ∧
    GetNumberOfLines L chip s = L.gpiod_chip_num_lines chip s ∧
    GetChipLineByOffset L chip offset s = L.gpiod_chip_get_line chip offset s ∧
    GetLineDirection L line s = L.gpiod_line_direction line s ∧
    RequestLineInput L line consumer s
      = L.gpiod_line_request_input line consumer s ∧
    LineIsFree L line s = L.gpiod_line_is_free line s ∧
    ReleaseGpiodLine L line s = L.gpiod_line_release line s ∧
    GetGpiodLineValue L line s = L.gpiod_line_get_value line s ∧
    SetGpiodLineValue L line value s = L.gpiod_line_set_value line value s ∧
    GetChipIterator L s = L.gpiod_chip_iter_new s ∧
    FreeChipIterator L iter s = L.gpiod_chip_iter_free iter s ∧
    FreeChipIteratorNoCloseCurrentChip L iter s
      = L.gpiod_chip_iter_free_noclose iter s ∧
    GetNextChipFromChipIterator L iter s = L.gpiod_chip_iter_next iter s ∧
    RequestBothEdgesEventForLine L line consumer s
      = L.gpiod_line_request_both_edges_events line consumer s ∧
    OpenChipByNumber L number s = L.gpiod_chip_open_by_number number s :=
  ⟨rfl, rfl, rfl, rfl, rfl, rfl, rfl, rfl, rfl, rfl, rfl, rfl, rfl, rfl, rfl⟩

/-- C10: when the library's read returns a non-zero result `r`,
`ReadEventForLine` returns `r` whatever the event buffer holds before or after
the call; two runs with the same non-zero read result and different buffer
contents return the same value. -/
theorem ReadEventForLine_failure_ignores_buffer (line : Ptr)
    (b1 b2 e1 e2 : gpiod_line_event) (s1 s2 t1 t2 : σ) (r : Int)
    (h1 : L.gpiod_line_event_read line b1 s1 = some ((r, e1), t1))
    (h2 : L.gpiod_line_event_read line b2 s2 = some ((r, e2), t2))
    (hr : r ≠ 0) :
    ReadEventForLine L line b1 s1 = some (r, t1) ∧
    ReadEventForLine L line b2 s2 = some (r, t2) ∧
    (ReadEventForLine L line b1 s1).map Prod.fst
      = (ReadEventForLine L line b2 s2).map Prod.fst := by
  have k1 : ReadEventForLine L line b1 s1 = some (r, t1) := by
    simp [ReadEventForLine, h1, hr]
  have k2 : ReadEventForLine L line b2 s2 = some (r, t2) := by
    simp [ReadEventForLine, h2, hr]
  exact ⟨k1, k2, by rw [k1, k2]; rfl⟩

end Generic

/-- Witness of C1: a rising edge is queued on line `2`; the library's read
returns 0 and `ReadEventForLine` returns event type 1, whatever the buffer
held. -/
theorem ReadEventForLine_result_witness :
    (simLib.gpiod_line_event_read 2 (staleEvent 7) Sim.risingQueued).map
        (fun r => r.1.1) = some 0 ∧
    (ReadEventForLine simLib 2 (staleEvent 7) Sim.risingQueued).map Prod.fst
      = some 1 :=
  ⟨rfl, by
    rw [(ReadEventForLine_result simLib 2 (staleEvent 7) Sim.risingQueued 0
      { ts := (staleEvent 7).ts, event_type := 1 } _ rfl).1 rfl]
    rfl⟩

/-- Witness of C10: line `2` holds no event subscription, so the library's read
fails with -1; `ReadEventForLine` returns -1 for two different buffers. -/
theorem ReadEventForLine_failure_ignores_buffer_witness :
    (-1 : Int) ≠ 0 ∧
    (ReadEventForLine simLib 2 (staleEvent 1) (Sim.withLine (-1))).map Prod.fst
      = some (-1) ∧
    (ReadEventForLine simLib 2 (staleEvent 1) (Sim.withLine (-1))).map Prod.fst
      = (ReadEventForLine simLib 2 (staleEvent 2) (Sim.withLine (-1))).map
          Prod.fst :=
  ⟨by decide, by
    rw [(ReadEventForLine_failure_ignores_buffer simLib 2 (staleEvent 1)
      (staleEvent 2) (staleEvent 1) (staleEvent 2) (Sim.withLine (-1))
      (Sim.withLine (-1)) _ _ (-1) rfl rfl (by decide)).1]
    rfl,
   (ReadEventForLine_failure_ignores_buffer simLib 2 (staleEvent 1)
      (staleEvent 2) (staleEvent 1) (staleEvent 2) (Sim.withLine (-1))
      (Sim.withLine (-1)) _ _ (-1) rfl rfl (by decide)).2.2⟩

/-! ## Properties that depend on the library, on the reference library -/

/-- C8: on the reference library, for every free line and consumer name, after
`RequestLineOutput` succeeds `LineIsFree` on that line returns false, and after
a following `ReleaseGpiodLine` on that line `LineIsFree` returns true. -/
theorem reserve_then_release (s : Sim) (line : Ptr) (consumer : String)
    (hfree : (LineIsFree simLib line s).1 = true)
    (hreq : (RequestLineOutput simLib line consumer s).1 = 0) :
    (LineIsFree simLib line
      (RequestLineOutput simLib line consumer s).2).1 = false ∧
    (LineIsFree simLib line
      (ReleaseGpiodLine simLib line
        (RequestLineOutput simLib line consumer s).2)).1 = true := by
  simp only [LineIsFree, RequestLineOutput, ReleaseGpiodLine, simLib] at *
  unfold Sim.gpiod_line_request_output Sim.reserve at *
  cases hv : s.validLine line with
  | none =>
    simp only [Sim.gpiod_line_is_free, hv, decide_eq_true_eq] at hfree
    simp only [hv] at hreq
    exact absurd hreq hfree
  | some l =>
    by_cases hst : l.state = LineState.free
    · simp [hv, hst, Sim.gpiod_line_is_free, Sim.gpiod_line_release,
        Sim.validLine, upd]
    · simp [hv, hst] at hreq

/-- Witness of C8: line `2` of the freshly opened chip is free; after
`RequestLineOutput` it is not free, and after `ReleaseGpiodLine` it is free
again. -/
theorem reserve_then_release_witness :
    (LineIsFree simLib 2 (Sim.withLine (-1))).1 = true ∧
    (RequestLineOutput simLib 2 "led" (Sim.withLine (-1))).1 = 0 ∧
    (LineIsFree simLib 2
      (RequestLineOutput simLib 2 "led" (Sim.withLine (-1))).2).1 = false ∧
    (LineIsFree simLib 2
      (ReleaseGpiodLine simLib 2
        (RequestLineOutput simLib 2 "led" (Sim.withLine (-1))).2)).1 = true :=
  ⟨by decide, by decide,
    reserve_then_release (Sim.withLine (-1)) 2 "led" (by decide) (by decide)⟩

/-- Closing a chip in the reference library leaves every other chip as it
was. -/
theorem Sim.chipOpen_close_of_ne (s : Sim) (chip c : Ptr) (h : c ≠ chip) :
    (s.gpiod_chip_close chip).chipOpen c = s.chipOpen c := by
  simp [Sim.chipOpen, Sim.gpiod_chip_close, h]

/-- A chip closed in the reference library is not open. -/
theorem Sim.chipOpen_close_self (s : Sim) (chip : Ptr) :
    (s.gpiod_chip_close chip).chipOpen chip = false := by
  unfold Sim.chipOpen Sim.gpiod_chip_close
  cases h : s.chips chip <;> simp [h]

/-- C7: the two disposal operations call different library operations
(`gpiod_chip_iter_free` and `gpiod_chip_iter_free_noclose`, not swapped).  On
the reference library, for every iterator: `FreeChipIterator` releases the
iterator and closes the most recently yielded chip, if any, and no other chip;
`FreeChipIteratorNoCloseCurrentChip` releases the iterator and leaves every
chip, the most recently yielded one included, as it was. -/
theorem iterator_disposal (s : Sim) (iter : Ptr) (it : SimIter)
    (hit : s.iters iter = some it) :
    ((FreeChipIterator simLib iter s).iters iter = none ∧
      (it.current ≠ 0 →
        (FreeChipIterator simLib iter s).chipOpen it.current = false) ∧
      (∀ c, c ≠ it.current →
        (FreeChipIterator simLib iter s).chipOpen c = s.chipOpen c)) ∧
    ((FreeChipIteratorNoCloseCurrentChip simLib iter s).iters iter = none ∧
      (∀ c, (FreeChipIteratorNoCloseCurrentChip simLib iter s).chipOpen c
        = s.chipOpen c)) ∧
    (∀ (τ : Type) (L : Gpiod τ) (i : Ptr) (t : τ),
      FreeChipIterator L i t = L.gpiod_chip_iter_free i t ∧
      FreeChipIteratorNoCloseCurrentChip L i t
        = L.gpiod_chip_iter_free_noclose i t) := by
  refine ⟨⟨?_, ?_, ?_⟩, ⟨?_, ?_⟩, fun _ _ _ _ => ⟨rfl, rfl⟩⟩
  · simp only [FreeChipIterator, simLib, Sim.gpiod_chip_iter_free, hit]
    split <;> simp [Sim.gpiod_chip_close, upd]
  · intro hcur
    simp only [FreeChipIterator, simLib, Sim.gpiod_chip_iter_free, hit, hcur,
      ne_eq, not_false_eq_true, if_true]
    exact Sim.chipOpen_close_self _ _
  · intro c hc
    simp only [FreeChipIterator, simLib, Sim.gpiod_chip_iter_free, hit]
    split
    · rw [Sim.chipOpen_close_of_ne _ _ _ hc]
      rfl
    · rfl
  · simp [FreeChipIteratorNoCloseCurrentChip, simLib,
      Sim.gpiod_chip_iter_free_noclose, upd]
  · intro c
    rfl

/-- Witness of C7: iterator `1` has yielded chip `2`, which is open;
`FreeChipIterator` closes it, `FreeChipIteratorNoCloseCurrentChip` leaves it
open, and both release the iterator. -/
theorem iterator_disposal_witness :
    Sim.iterating.iters 1 = some { position := 1, current := 2 } ∧
    Sim.iterating.chipOpen 2 = true ∧
    (FreeChipIterator simLib 1 Sim.iterating).chipOpen 2 = false ∧
    (FreeChipIteratorNoCloseCurrentChip simLib 1 Sim.iterating).chipOpen 2
      = true ∧
    (FreeChipIterator simLib 1 Sim.iterating).iters 1 = none ∧
    (FreeChipIteratorNoCloseCurrentChip simLib 1 Sim.iterating).iters 1
      = none :=
  ⟨rfl, by decide,
    (iterator_disposal Sim.iterating 1 { position := 1, current := 2 }
      rfl).1.2.1 (by decide),
    ((iterator_disposal Sim.iterating 1 { position := 1, current := 2 }
      rfl).2.1.2 2).trans (by decide),
    (iterator_disposal Sim.iterating 1 { position := 1, current := 2 }
      rfl).1.1,
    (iterator_disposal Sim.iterating 1 { position := 1, current := 2 }
      rfl).2.1.1⟩

/-- C5: on the reference library, for every line the library holds,
`GetGpiodLineValue` returns -1 when the read fails (the line is not reserved,
or the read fails at the kernel boundary) and the line's level, 0 or 1, when
it succeeds.  The result is -1 exactly when the read failed and 0 exactly for
a successful read of level 0, so a failed read is never reported as 0 or 1
and a level 0 is never taken for a failure. -/
theorem GetGpiodLineValue_distinguishes (s : Sim) (line : Ptr) (l : SimLine)
    (hline : s.validLine line = some l) :
    (l.state = LineState.free ∨ s.read_error = true →
      (GetGpiodLineValue simLib line s).1 = -1) ∧
    (l.state ≠ LineState.free → s.read_error = false →
      (GetGpiodLineValue simLib line s).1 = logical l.value ∧
      ((GetGpiodLineValue simLib line s).1 = 0 ∨
        (GetGpiodLineValue simLib line s).1 = 1)) ∧
    ((GetGpiodLineValue simLib line s).1 = -1 ↔
      (l.state = LineState.free ∨ s.read_error = true)) ∧
    ((GetGpiodLineValue simLib line s).1 = 0 ↔
      (l.state ≠ LineState.free ∧ s.read_error = false ∧ l.value = 0)) ∧
    ((GetGpiodLineValue simLib line s).1 = 0 ∨
      (GetGpiodLineValue simLib line s).1 = 1 ∨
      (GetGpiodLineValue simLib line s).1 = -1) := by
  have hval : (GetGpiodLineValue simLib line s).1
      = if l.state = LineState.free ∨ s.read_error = true then -1
        else logical l.value := by
    simp only [GetGpiodLineValue, simLib, Sim.gpiod_line_get_value, hline]
    split <;> rfl
  have hlog : logical l.value = 0 ∨ logical l.value = 1 := by
    unfold logical
    split
    · exact Or.inl rfl
    · exact Or.inr rfl
  have hlog0 : logical l.value = 0 ↔ l.value = 0 := by
    unfold logical
    split <;> simp [*]
  rw [hval]
  by_cases hfail : l.state = LineState.free ∨ s.read_error = true
  · rw [if_pos hfail]
    refine ⟨fun _ => rfl, ?_, ?_, ?_, Or.inr (Or.inr rfl)⟩
    · intro hres herr
      rcases hfail with h | h
      · exact absurd h hres
      · rw [herr] at h
        exact absurd h (by decide)
    · exact ⟨fun _ => hfail, fun _ => rfl⟩
    · constructor
      · intro h
        exact absurd h (by decide)
      · rintro ⟨hres, herr, _⟩
        rcases hfail with h | h
        · exact absurd h hres
        · rw [herr] at h
          exact absurd h (by decide)
  · rw [if_neg hfail]
    have hres : l.state ≠ LineState.free := fun h => hfail (Or.inl h)
    have herr : s.read_error = false := by
      cases h : s.read_error
      · rfl
      · exact absurd (Or.inr h) hfail
    refine ⟨fun h => absurd h hfail, fun _ _ => ⟨rfl, hlog⟩, ?_, ?_, ?_⟩
    · constructor
      · intro h
        rcases hlog with h0 | h1
        · rw [h0] at h
          exact absurd h (by decide)
        · rw [h1] at h
          exact absurd h (by decide)
      · intro h
        exact absurd h hfail
    · rw [hlog0]
      exact ⟨fun h => ⟨hres, herr, h⟩, fun h => h.2.2⟩
    · rcases hlog with h0 | h1
      · exact Or.inl h0
      · exact Or.inr (Or.inl h1)

/-- Witness of C5: line `2` reserved for output with initial value 0 reads 0;
the same line reads -1 when the read fails at the kernel boundary, and reads
-1 while it is not reserved. -/
theorem GetGpiodLineValue_distinguishes_witness :
    (GetGpiodLineValue simLib 2 Sim.outputReserved).1 = 0 ∧
    (GetGpiodLineValue simLib 2
      { Sim.outputReserved with read_error := true }).1 = -1 ∧
    (GetGpiodLineValue simLib 2 (Sim.withLine (-1))).1 = -1 :=
  ⟨((GetGpiodLineValue_distinguishes Sim.outputReserved 2
      { chip := 1, offset := 0, state := LineState.output, consumer := "led",
        direction := 2, value := 0, queue := [] } rfl).2.2.2.1).2
      ⟨by decide, rfl, rfl⟩,
    (GetGpiodLineValue_distinguishes
      { Sim.outputReserved with read_error := true } 2
      { chip := 1, offset := 0, state := LineState.output, consumer := "led",
        direction := 2, value := 0, queue := [] } rfl).1 (Or.inr rfl),
    (GetGpiodLineValue_distinguishes (Sim.withLine (-1)) 2
      { chip := 1, offset := 0, state := LineState.free, consumer := "",
        direction := -1, value := 0, queue := [] } rfl).1 (Or.inl rfl)⟩

end Libgpiod
